import Mathlib

/-!
Shallow embedding of the widget-side message bridge of
`src/widget/hooks/useApp.ts` (the SDK-free variant, lines 1-233): the
module-level request-id counter, the pending-request map, `sendRequest`,
`sendNotification`, the `handleMessage` listener (response correlation and
the notification switch), the per-request timeout callback, the effect
cleanup, and the initialize handshake continuation.

Promise settlement is modelled by an append-only log `settlements`:
calling a pending record's `resolve`/`reject` continuation appends one
entry for that request id.  Timers are modelled implicitly: a request's
timer is armed exactly while its record is in the pending map, which is
faithful because the source pairs every `clearTimeout` with the removal
of the record (response path lines 110-111, teardown lines 182-185) and
the timeout callback itself removes the record when it fires (line 68).
`window.parent.postMessage` appends to the `sent` log and
`window.dispatchEvent(new CustomEvent(...))` appends to the `dispatched`
log.
-/

namespace McpBridge

/-- JSON-shaped payload values carried in `params` / `result` fields. -/
inductive Value where
  | null
  | bool (b : Bool)
  | num (n : Int)
  | str (s : String)
  | arr (elems : List Value)
  | obj (fields : List (String × Value))

/-- The `error` member of a Response, from `src/shared/types.ts`
(`error?: { code: number; message: string }`). -/
structure RpcError where
  code : Int
  message : String

/-- The wire envelope, from `src/shared/types.ts` (`JSONRPCMessage`).
Every member is optional here because `handleMessage` receives raw
`event.data` that may be foreign traffic: `jsonrpc` is `none` when the
protocol tag is absent, and an absent member is `none` while an explicit
JSON `null` is `some Value.null` (matching the `!== undefined` tests in
the source). -/
structure JSONRPCMessage where
  jsonrpc : Option String
  id : Option Nat
  method : Option String
  params : Option Value
  result : Option Value
  error : Option RpcError

/-- The request envelope posted by `sendRequest` (line 64):
`{ jsonrpc: "2.0", id, method, params }`. -/
def mkRequest (id : Nat) (method : String) (params : Option Value) :
    JSONRPCMessage :=
  { jsonrpc := some "2.0", id := some id, method := some method,
    params := params, result := none, error := none }

/-- The envelope posted by `sendNotification` (line 81):
`{ jsonrpc: "2.0", method, params }` (no id). -/
def mkNote (method : String) (params : Option Value) : JSONRPCMessage :=
  { jsonrpc := some "2.0", id := none, method := some method,
    params := params, result := none, error := none }

/-- A successful Response envelope as a host would send it. -/
def mkResponseOk (id : Nat) (result : Value) : JSONRPCMessage :=
  { jsonrpc := some "2.0", id := some id, method := none,
    params := none, result := some result, error := none }

/-- An error Response envelope as a host would send it. -/
def mkResponseErr (id : Nat) (e : RpcError) : JSONRPCMessage :=
  { jsonrpc := some "2.0", id := some id, method := none,
    params := none, result := none, error := some e }

/-- One entry of the `pendingRequests` map (lines 55-58).  The
`resolve`/`reject` closures are represented by the settlements log of the
bridge state; the closure's captured `method` (used by the timeout
message, line 69) is kept here.  The timer handle is implicit: armed iff
the record is present. -/
structure PendingRecord where
  method : String

/-- One firing of a pending promise's continuation: `resolve(v)` or
`reject(new Error(msg))`. -/
inductive Settlement where
  | resolved (result : Option Value)
  | rejected (message : String)

/-- `pendingRequests.get(id)` on the association-list model of the Map. -/
def mapGet (m : List (Nat × PendingRecord)) (i : Nat) :
    Option PendingRecord :=
  (m.find? (fun p => p.1 == i)).map (fun p => p.2)

/-- `pendingRequests.delete(id)`. -/
def mapDelete (m : List (Nat × PendingRecord)) (i : Nat) :
    List (Nat × PendingRecord) :=
  m.filter (fun p => p.1 != i)

/-- `pendingRequests.set(id, rec)`: replace-or-insert.  (Insertion order
of the Map is irrelevant to the bridge: the only iteration over it, the
teardown loop, treats all entries alike.) -/
def mapSet (m : List (Nat × PendingRecord)) (i : Nat)
    (r : PendingRecord) : List (Nat × PendingRecord) :=
  mapDelete m i ++ [(i, r)]

/-- The React state of the hook (interface `AppState`, lines 30-37). -/
structure AppState where
  isConnected : Bool
  hostContext : Option Value
  toolInput : Option Value
  toolResult : Option Value
  isCancelled : Bool
  isTearingDown : Bool

/-- The whole bridge: the module-level mutable variables (`requestId`,
`pendingRequests`), the hook state, and the observation logs described in
the file comment. -/
structure BridgeState where
  requestId : Nat
  pending : List (Nat × PendingRecord)
  settlements : List (Nat × Settlement)
  sent : List JSONRPCMessage
  dispatched : List (String × Option Value)
  app : AppState

/-- `REQUEST_TIMEOUT = 30000` (line 60). -/
def REQUEST_TIMEOUT : Nat := 30000

/-- `sendRequest` (lines 62-78): allocate `id = requestId++`, post the
request envelope to the parent window, register a pending record (whose
timer is thereby armed for `REQUEST_TIMEOUT` ms).  Returns the new state
and the allocated id. -/
def sendRequest (method : String) (params : Option Value)
    (s : BridgeState) : BridgeState × Nat :=
  let i := s.requestId
  ({ s with
      requestId := s.requestId + 1,
      sent := s.sent ++ [mkRequest i method params],
      pending := mapSet s.pending i { method := method } }, i)

/-- `sendNotification` (lines 80-82). -/
def sendNotification (method : String) (params : Option Value)
    (s : BridgeState) : BridgeState :=
  { s with sent := s.sent ++ [mkNote method params] }

/-- Key-wise JS object spread `{ ...a, ...b }`: keys of `a` in order with
values overridden by `b`, then keys of `b` not in `a`. -/
def spreadMerge (a b : List (String × Value)) : List (String × Value) :=
  a.map (fun p =>
    match b.find? (fun q => q.1 == p.1) with
    | some q => q
    | none => p) ++
  b.filter (fun q => (a.find? (fun p => p.1 == q.1)).isNone)

/-- The fields of a value when it is an object (spreading anything else
contributes no named fields). -/
def objFields : Option Value → List (String × Value)
  | some (Value.obj fs) => fs
  | _ => []

/-- Whether a payload value is the JSON `null` literal. -/
def isNullValue : Value → Bool
  | Value.null => true
  | _ => false

/-- `result.hostContext ?? null` (line 171): member access followed by
null-coalescing; `none` stands for JS `null`/`undefined`. -/
def getField (v : Option Value) (k : String) : Option Value :=
  match v with
  | some (Value.obj fs) =>
    match fs.find? (fun p => p.1 == k) with
    | some p => if isNullValue p.2 then none else some p.2
    | none => none
  | _ => none

/-- The notification `switch (data.method)` of `handleMessage`
(lines 122-152).  Each arm updates the hook state and dispatches a
CustomEvent; an unknown (or absent) method matches no case and does
nothing. -/
def handleNoteSwitch (d : JSONRPCMessage) (s : BridgeState) :
    BridgeState :=
  match d.method with
  | some "ui/notifications/tool-input" =>
    { s with app := { s.app with toolInput := d.params },
             dispatched := s.dispatched ++ [("mcp:tool-input", d.params)] }
  | some "ui/notifications/tool-result" =>
    { s with app := { s.app with toolResult := d.params },
             dispatched := s.dispatched ++ [("mcp:tool-result", d.params)] }
  | some "ui/host-context-change" =>
    let merged : Option Value :=
      some (Value.obj
        (spreadMerge (objFields s.app.hostContext) (objFields d.params)))
    { s with app := { s.app with hostContext := merged },
             dispatched := s.dispatched ++ [("mcp:context-change", d.params)] }
  | some "ui/tool-cancelled" =>
    { s with app := { s.app with isCancelled := true },
             dispatched := s.dispatched ++ [("mcp:tool-cancelled", d.params)] }
  | some "ui/resource-teardown" =>
    { s with app := { s.app with isTearingDown := true },
             dispatched := s.dispatched ++ [("mcp:teardown", d.params)] }
  | _ => s

/-- The settlement performed by the response branch of `handleMessage`
(lines 112-116): `if (data.error) reject(new Error(data.error.message))
else resolve(data.result)`. -/
def settleOf (d : JSONRPCMessage) : Settlement :=
  match d.error with
  | some e => Settlement.rejected e.message
  | none => Settlement.resolved d.result

/-- `handleMessage` (lines 102-153).  `none` models a null/undefined
`event.data`.  Guard: `if (!data || data.jsonrpc !== "2.0") return`.
Response branch: `if (data.id !== undefined && (data.result !== undefined
|| data.error))` — look up the pending record; if absent, return (silent
drop); if present, clear its timer, delete it, and settle.  Otherwise the
message falls through to the notification switch. -/
def handleMessage (data : Option JSONRPCMessage) (s : BridgeState) :
    BridgeState :=
  match data with
  | none => s
  | some d =>
    if d.jsonrpc ≠ some "2.0" then s
    else
      match d.id with
      | none => handleNoteSwitch d s
      | some i =>
        if d.result.isSome || d.error.isSome then
          match mapGet s.pending i with
          | none => s
          | some _ =>
            { s with
                pending := mapDelete s.pending i,
                settlements := s.settlements ++ [(i, settleOf d)] }
        else
          handleNoteSwitch d s

/-- The timeout callback of `sendRequest` (lines 67-70): delete the
record and `reject(new Error("Request timeout: " + method))`.  A timer
only fires while armed, and armed iff the record is present, so firing
for an absent id is a no-op (that timer was cleared). -/
def fireTimeout (i : Nat) (s : BridgeState) : BridgeState :=
  match mapGet s.pending i with
  | none => s
  | some r =>
    { s with
        pending := mapDelete s.pending i,
        settlements := s.settlements ++
          [(i, Settlement.rejected ("Request timeout: " ++ r.method))] }

/-- The effect cleanup (lines 179-186): remove the message listener,
`clearTimeout` every pending record's timer, and `pendingRequests.clear()`.
No continuation is invoked. -/
def teardownBridge (s : BridgeState) : BridgeState :=
  { s with pending := [] }

/-- The params object of the `ui/initialize` request (lines 158-166). -/
def initParams : Value :=
  Value.obj
    [("protocolVersion", Value.str "2025-06-18"),
     ("appInfo", Value.obj
       [("name", Value.str "mcp-apps-everything"),
        ("version", Value.str "0.0.1")]),
     ("appCapabilities", Value.obj
       [("resize", Value.bool true),
        ("toolCalls", Value.bool true),
        ("resourceReads", Value.bool true)])]

/-- The start of the handshake (line 158): the effect issues the
`ui/initialize` request through the same `sendRequest` (and hence the
same module-level counter) as every other operation. -/
def connectStart (s : BridgeState) : BridgeState × Nat :=
  sendRequest "ui/initialize" (some initParams) s

/-- The `.then` continuation of the `ui/initialize` request
(lines 167-174): runs exactly when that request's promise resolves
successfully; sets `isConnected`, stores `result.hostContext ?? null`,
and emits the `ui/notifications/initialized` notification. -/
def initThen (result : Option Value) (s : BridgeState) : BridgeState :=
  sendNotification "ui/notifications/initialized" none
    { s with app := { s.app with
        isConnected := true,
        hostContext := getField result "hostContext" } }

/-- `callTool` (lines 190-195): forwards straight to `sendRequest`. -/
def callTool (name : String) (args : Value) (s : BridgeState) :
    BridgeState × Nat :=
  sendRequest "tools/call"
    (some (Value.obj [("name", Value.str name), ("arguments", args)])) s

/-- `readResource` (lines 198-203). -/
def readResource (uri : String) (s : BridgeState) : BridgeState × Nat :=
  sendRequest "resources/read" (some (Value.obj [("uri", Value.str uri)])) s

/-- `sendMessage` (lines 206-211). -/
def sendMessage (text : String) (s : BridgeState) : BridgeState × Nat :=
  sendRequest "ui/message"
    (some (Value.obj
      [("role", Value.str "user"),
       ("content", Value.obj
         [("type", Value.str "text"), ("text", Value.str text)])])) s

/-- `openLink` (lines 214-216). -/
def openLink (url : String) (s : BridgeState) : BridgeState × Nat :=
  sendRequest "ui/open-link" (some (Value.obj [("url", Value.str url)])) s

/-- `resize` (lines 219-221): a notification, no pending record. -/
def resize (width height : Int) (s : BridgeState) : BridgeState :=
  sendNotification "ui/size-change"
    (some (Value.obj
      [("width", Value.num width), ("height", Value.num height)])) s

/-- The events the single-threaded event loop can deliver to the bridge:
an outgoing request issued by the widget, arrival of a raw message on the
channel, the firing of an armed per-request timer, and the effect cleanup
on unmount. -/
inductive Event where
  | send (method : String) (params : Option Value)
  | recv (data : Option JSONRPCMessage)
  | fire (i : Nat)
  | close

/-- One event-loop step. -/
def step (s : BridgeState) (e : Event) : BridgeState :=
  match e with
  | Event.send m p => (sendRequest m p s).1
  | Event.recv d => handleMessage d s
  | Event.fire i => fireTimeout i s
  | Event.close => teardownBridge s

/-- The module as loaded: `requestId = 1` (line 54), empty map, nothing
sent, hook state all-false/null (lines 85-92). -/
def initialState : BridgeState :=
  { requestId := 1, pending := [], settlements := [], sent := [],
    dispatched := [],
    app := { isConnected := false, hostContext := none, toolInput := none,
             toolResult := none, isCancelled := false,
             isTearingDown := false } }

/-- Execute an event trace from the initial module state. -/
def run (es : List Event) : BridgeState :=
  es.foldl step initialState

/-- Ids of currently pending (= timer-armed) requests. -/
def pendingIds (s : BridgeState) : List Nat :=
  s.pending.map (fun p => p.1)

/-- Ids whose promise continuation has been invoked, in invocation
order. -/
def settledIds (s : BridgeState) : List Nat :=
  s.settlements.map (fun p => p.1)

/-- Ids carried by envelopes posted to the parent window, in posting
order: exactly the ids `sendRequest` has allocated. -/
def allocatedIds (s : BridgeState) : List Nat :=
  s.sent.filterMap (fun d => d.id)

/-! ### Association-list facts about the pending map -/

theorem keys_mapDelete (m : List (Nat × PendingRecord)) (i : Nat) :
    (mapDelete m i).map (fun p => p.1) =
      (m.map (fun p => p.1)).filter (fun j => j != i) := by
  induction m with
  | nil => rfl
  | cons a t ih =>
    simp only [mapDelete, List.filter_cons, List.map_cons] at *
    by_cases hc : (a.1 != i) = true
    · simp [hc, ih]
    · simp [hc, ih]

theorem mapDelete_of_not_mem (m : List (Nat × PendingRecord)) (i : Nat)
    (h : i ∉ m.map (fun p => p.1)) : mapDelete m i = m := by
  apply List.filter_eq_self.mpr
  intro a ha
  have hne : a.1 ≠ i := by
    intro he
    exact h (he ▸ List.mem_map_of_mem (fun p => p.1) ha)
  simpa using hne

theorem find?_mapDelete_self (m : List (Nat × PendingRecord)) (i : Nat) :
    (mapDelete m i).find? (fun p => p.1 == i) = none := by
  rw [List.find?_eq_none]
  intro x hx
  have hx2 := (List.mem_filter.mp hx).2
  simp only [bne_iff_ne, ne_eq] at hx2
  simpa using hx2

theorem mapGet_mapDelete_self (m : List (Nat × PendingRecord)) (i : Nat) :
    mapGet (mapDelete m i) i = none := by
  unfold mapGet
  rw [find?_mapDelete_self]
  rfl

theorem mapGet_mapSet_self (m : List (Nat × PendingRecord)) (i : Nat)
    (r : PendingRecord) : mapGet (mapSet m i r) i = some r := by
  unfold mapSet mapGet
  rw [List.find?_append, find?_mapDelete_self]
  simp

theorem mapGet_some_mem (m : List (Nat × PendingRecord)) (i : Nat)
    (r : PendingRecord) (h : mapGet m i = some r) :
    i ∈ m.map (fun p => p.1) := by
  induction m with
  | nil => simp [mapGet] at h
  | cons a t ih =>
    by_cases hc : (a.1 == i) = true
    · have ha : a.1 = i := by simpa using hc
      simp [List.mem_cons, ha]
    · unfold mapGet at h ih
      rw [@List.find?_cons_of_neg _ (fun p => p.1 == i) a t hc] at h
      simp only [List.map_cons, List.mem_cons]
      exact Or.inr (ih h)

theorem mem_mapGet_isSome (m : List (Nat × PendingRecord)) (i : Nat)
    (h : i ∈ m.map (fun p => p.1)) : (mapGet m i).isSome = true := by
  induction m with
  | nil => simp at h
  | cons a t ih =>
    by_cases hc : (a.1 == i) = true
    · unfold mapGet
      rw [@List.find?_cons_of_pos _ (fun p => p.1 == i) a t hc]
      rfl
    · simp only [List.map_cons, List.mem_cons] at h
      rcases h with h | h
      · exact absurd (by simpa using h.symm) hc
      · unfold mapGet at ih ⊢
        rw [@List.find?_cons_of_neg _ (fun p => p.1 == i) a t hc]
        exact ih h

/-! ### Frame facts about the two halves of the message listener -/

theorem handleNoteSwitch_frame (d : JSONRPCMessage) (s : BridgeState) :
    (handleNoteSwitch d s).requestId = s.requestId ∧
    (handleNoteSwitch d s).pending = s.pending ∧
    (handleNoteSwitch d s).settlements = s.settlements ∧
    (handleNoteSwitch d s).sent = s.sent ∧
    (handleNoteSwitch d s).app.isConnected = s.app.isConnected := by
  unfold handleNoteSwitch
  split <;> exact ⟨rfl, rfl, rfl, rfl, rfl⟩

theorem handleNoteSwitch_flags (d : JSONRPCMessage) (s : BridgeState) :
    (s.app.isCancelled = true →
      (handleNoteSwitch d s).app.isCancelled = true) ∧
    (s.app.isTearingDown = true →
      (handleNoteSwitch d s).app.isTearingDown = true) := by
  unfold handleNoteSwitch
  split <;> refine ⟨fun h => ?_, fun h => ?_⟩ <;> first | rfl | exact h

theorem handleMessage_none_eq (s : BridgeState) :
    handleMessage none s = s := rfl

theorem handleMessage_not_tagged (d : JSONRPCMessage) (s : BridgeState)
    (h : ¬ d.jsonrpc = some "2.0") : handleMessage (some d) s = s := by
  unfold handleMessage
  simp [h]

theorem handleMessage_no_id (d : JSONRPCMessage) (s : BridgeState)
    (htag : d.jsonrpc = some "2.0") (hid : d.id = none) :
    handleMessage (some d) s = handleNoteSwitch d s := by
  unfold handleMessage
  simp [htag, hid]

theorem handleMessage_no_resp_member (d : JSONRPCMessage) (s : BridgeState)
    (htag : d.jsonrpc = some "2.0") (i : Nat) (hid : d.id = some i)
    (hre : (d.result.isSome || d.error.isSome) = false) :
    handleMessage (some d) s = handleNoteSwitch d s := by
  unfold handleMessage
  simp [htag, hid, hre]

theorem handleMessage_response_miss (d : JSONRPCMessage) (s : BridgeState)
    (htag : d.jsonrpc = some "2.0") (i : Nat) (hid : d.id = some i)
    (hre : (d.result.isSome || d.error.isSome) = true)
    (hmiss : mapGet s.pending i = none) :
    handleMessage (some d) s = s := by
  unfold handleMessage
  simp [htag, hid, hre, hmiss]

theorem handleMessage_response_hit (d : JSONRPCMessage) (s : BridgeState)
    (htag : d.jsonrpc = some "2.0") (i : Nat) (hid : d.id = some i)
    (hre : (d.result.isSome || d.error.isSome) = true)
    (r : PendingRecord) (hhit : mapGet s.pending i = some r) :
    handleMessage (some d) s =
      { s with pending := mapDelete s.pending i,
               settlements := s.settlements ++ [(i, settleOf d)] } := by
  unfold handleMessage
  simp [htag, hid, hre, hhit]

theorem fireTimeout_miss (i : Nat) (s : BridgeState)
    (hmiss : mapGet s.pending i = none) : fireTimeout i s = s := by
  unfold fireTimeout
  simp [hmiss]

theorem fireTimeout_hit (i : Nat) (s : BridgeState) (r : PendingRecord)
    (hhit : mapGet s.pending i = some r) :
    fireTimeout i s =
      { s with pending := mapDelete s.pending i,
               settlements := s.settlements ++
                 [(i, Settlement.rejected ("Request timeout: " ++ r.method))] } := by
  unfold fireTimeout
  simp [hhit]

/-! ### The correlator invariant

Ids are allocated as ` 1, 2, 3, ...`; pending and settled ids stay below
the counter, are duplicate-free, and are disjoint from each other (a
record is removed the moment its promise is settled). -/

structure Inv (s : BridgeState) : Prop where
  one_le : 1 ≤ s.requestId
  alloc_eq : allocatedIds s = List.range' 1 (s.requestId - 1)
  pending_lt : ∀ i ∈ pendingIds s, i < s.requestId
  settled_lt : ∀ i ∈ settledIds s, i < s.requestId
  pending_nodup : (pendingIds s).Nodup
  settled_nodup : (settledIds s).Nodup
  disj : ∀ i ∈ pendingIds s, i ∉ settledIds s

theorem inv_initial : Inv initialState := by
  constructor <;> simp [initialState, allocatedIds, pendingIds, settledIds]

theorem inv_of_frame (s t : BridgeState) (hs : Inv s)
    (h1 : t.requestId = s.requestId) (h2 : t.pending = s.pending)
    (h3 : t.settlements = s.settlements) (h4 : t.sent = s.sent) : Inv t := by
  obtain ⟨a1, a2, a3, a4, a5, a6, a7⟩ := hs
  have e1 : allocatedIds t = allocatedIds s := by
    unfold allocatedIds; rw [h4]
  have e2 : pendingIds t = pendingIds s := by
    unfold pendingIds; rw [h2]
  have e3 : settledIds t = settledIds s := by
    unfold settledIds; rw [h3]
  exact ⟨h1 ▸ a1, by rw [e1, h1]; exact a2, by rw [e2, h1]; exact a3,
         by rw [e3, h1]; exact a4, e2 ▸ a5, e3 ▸ a6,
         by rw [e2, e3]; exact a7⟩

theorem range'_one_concat (n : Nat) (h : 1 ≤ n) :
    List.range' 1 n = List.range' 1 (n - 1) ++ [n] := by
  obtain ⟨k, rfl⟩ : ∃ k, n = k + 1 := ⟨n - 1, by omega⟩
  have h2 := @List.range'_concat 1 1 k
  simp only [one_mul] at h2
  simp only [Nat.add_sub_cancel]
  rw [h2, Nat.add_comm 1 k]

theorem inv_send (m : String) (p : Option Value) (s : BridgeState)
    (hs : Inv s) : Inv (sendRequest m p s).1 := by
  obtain ⟨a1, a2, a3, a4, a5, a6, a7⟩ := hs
  have hnot : s.requestId ∉ pendingIds s :=
    fun hmem => absurd (a3 _ hmem) (lt_irrefl _)
  have hdel : mapDelete s.pending s.requestId = s.pending :=
    mapDelete_of_not_mem _ _ hnot
  have hpend : pendingIds (sendRequest m p s).1 =
      pendingIds s ++ [s.requestId] := by
    simp [sendRequest, pendingIds, mapSet, hdel]
  have halloc : allocatedIds (sendRequest m p s).1 =
      allocatedIds s ++ [s.requestId] := by
    simp [sendRequest, allocatedIds, mkRequest]
  have hset : settledIds (sendRequest m p s).1 = settledIds s := rfl
  have hrid : (sendRequest m p s).1.requestId = s.requestId + 1 := rfl
  constructor
  · rw [hrid]; omega
  · rw [halloc, hrid, a2]
    have : s.requestId + 1 - 1 = s.requestId := by omega
    rw [this, range'_one_concat s.requestId a1]
  · intro i hi
    rw [hpend] at hi
    rw [hrid]
    rcases List.mem_append.mp hi with h | h
    · exact Nat.lt_succ_of_lt (a3 _ h)
    · simp at h; omega
  · intro i hi
    rw [hset] at hi
    rw [hrid]
    exact Nat.lt_succ_of_lt (a4 _ hi)
  · rw [hpend]
    simp [List.nodup_append, a5, hnot]
  · rw [hset]; exact a6
  · intro i hi
    rw [hpend] at hi
    rw [hset]
    rcases List.mem_append.mp hi with h | h
    · exact a7 _ h
    · simp at h
      subst h
      exact fun hmem => absurd (a4 _ hmem) (lt_irrefl _)

theorem inv_settle (s : BridgeState) (i : Nat) (st : Settlement)
    (hs : Inv s) (hmem : i ∈ pendingIds s) :
    Inv { s with pending := mapDelete s.pending i,
                 settlements := s.settlements ++ [(i, st)] } := by
  obtain ⟨a1, a2, a3, a4, a5, a6, a7⟩ := hs
  have hpend : pendingIds { s with
        pending := mapDelete s.pending i,
        settlements := s.settlements ++ [(i, st)] } =
      (pendingIds s).filter (fun j => j != i) := by
    simp [pendingIds, keys_mapDelete]
  have hset : settledIds { s with
        pending := mapDelete s.pending i,
        settlements := s.settlements ++ [(i, st)] } =
      settledIds s ++ [i] := by
    simp [settledIds]
  constructor
  · exact a1
  · exact a2
  · intro j hj
    rw [hpend] at hj
    exact a3 _ (List.mem_filter.mp hj).1
  · intro j hj
    rw [hset] at hj
    rcases List.mem_append.mp hj with h | h
    · exact a4 _ h
    · simp at h; subst h; exact a3 _ hmem
  · rw [hpend]; exact a5.filter _
  · rw [hset]
    simp [List.nodup_append, a6]
    exact a7 _ hmem
  · intro j hj
    rw [hpend] at hj
    rw [hset]
    have hj1 := (List.mem_filter.mp hj).1
    have hj2 := (List.mem_filter.mp hj).2
    intro hcon
    rcases List.mem_append.mp hcon with h | h
    · exact a7 _ hj1 h
    · simp at h hj2
      exact hj2 h

theorem inv_close (s : BridgeState) (hs : Inv s) : Inv (teardownBridge s) := by
  obtain ⟨a1, a2, a3, a4, a5, a6, a7⟩ := hs
  constructor
  · exact a1
  · exact a2
  · intro i hi; simp [teardownBridge, pendingIds] at hi
  · exact a4
  · simp [teardownBridge, pendingIds]
  · exact a6
  · intro i hi; simp [teardownBridge, pendingIds] at hi

theorem inv_handleMessage (d : Option JSONRPCMessage) (s : BridgeState)
    (hs : Inv s) : Inv (handleMessage d s) := by
  cases d with
  | none => exact hs
  | some dd =>
    by_cases htag : dd.jsonrpc = some "2.0"
    · cases hid : dd.id with
      | none =>
        rw [handleMessage_no_id dd s htag hid]
        obtain ⟨f1, f2, f3, f4, _⟩ := handleNoteSwitch_frame dd s
        exact inv_of_frame s _ hs f1 f2 f3 f4
      | some i =>
        by_cases hre : (dd.result.isSome || dd.error.isSome) = true
        · cases hget : mapGet s.pending i with
          | none =>
            rw [handleMessage_response_miss dd s htag i hid hre hget]
            exact hs
          | some r =>
            rw [handleMessage_response_hit dd s htag i hid hre r hget]
            exact inv_settle s i (settleOf dd) hs
              (mapGet_some_mem s.pending i r hget)
        · rw [handleMessage_no_resp_member dd s htag i hid
            (Bool.not_eq_true _ ▸ hre)]
          obtain ⟨f1, f2, f3, f4, _⟩ := handleNoteSwitch_frame dd s
          exact inv_of_frame s _ hs f1 f2 f3 f4
    · rw [handleMessage_not_tagged dd s htag]
      exact hs

theorem inv_step (s : BridgeState) (e : Event) (hs : Inv s) :
    Inv (step s e) := by
  cases e with
  | send m p => exact inv_send m p s hs
  | recv d => exact inv_handleMessage d s hs
  | fire i =>
    cases hget : mapGet s.pending i with
    | none =>
      show Inv (fireTimeout i s)
      rw [fireTimeout_miss i s hget]
      exact hs
    | some r =>
      show Inv (fireTimeout i s)
      rw [fireTimeout_hit i s r hget]
      exact inv_settle s i _ hs (mapGet_some_mem s.pending i r hget)
  | close => exact inv_close s hs

theorem inv_foldl (es : List Event) :
    ∀ t : BridgeState, Inv t → Inv (es.foldl step t) := by
  induction es with
  | nil => exact fun t ht => ht
  | cons e tl ih => exact fun t ht => ih _ (inv_step t e ht)

/-- Every reachable bridge state satisfies the correlator invariant. -/
theorem inv_run (es : List Event) : Inv (run es) :=
  inv_foldl es initialState inv_initial

theorem run_append_single (es : List Event) (e : Event) :
    run (es ++ [e]) = step (run es) e := by
  simp [run, List.foldl_append]

/-- A request whose record is still in the map settles the moment its
(still armed) timer fires, and its record is removed. -/
theorem fire_settles (s : BridgeState) (i : Nat)
    (hmem : i ∈ pendingIds s) :
    i ∈ settledIds (fireTimeout i s) ∧
    i ∉ pendingIds (fireTimeout i s) := by
  have hsome := mem_mapGet_isSome s.pending i hmem
  obtain ⟨r, hr⟩ := Option.isSome_iff_exists.mp hsome
  rw [fireTimeout_hit i s r hr]
  constructor
  · simp [settledIds]
  · simp [pendingIds, keys_mapDelete, List.mem_filter]

/-- The listener never posts anything back to the host: no path of
`handleMessage` touches `window.parent.postMessage`. -/
theorem handleMessage_sent_eq (d : Option JSONRPCMessage)
    (s : BridgeState) : (handleMessage d s).sent = s.sent := by
  cases d with
  | none => rfl
  | some dd =>
    by_cases htag : dd.jsonrpc = some "2.0"
    · cases hid : dd.id with
      | none =>
        rw [handleMessage_no_id dd s htag hid]
        exact (handleNoteSwitch_frame dd s).2.2.2.1
      | some i =>
        by_cases hre : (dd.result.isSome || dd.error.isSome) = true
        · cases hget : mapGet s.pending i with
          | none => rw [handleMessage_response_miss dd s htag i hid hre hget]
          | some r =>
            rw [handleMessage_response_hit dd s htag i hid hre r hget]
        · rw [handleMessage_no_resp_member dd s htag i hid
            (Bool.not_eq_true _ ▸ hre)]
          exact (handleNoteSwitch_frame dd s).2.2.2.1
    · rw [handleMessage_not_tagged dd s htag]

/-- The timeout callback never touches the hook state. -/
theorem fireTimeout_app (i : Nat) (s : BridgeState) :
    (fireTimeout i s).app = s.app := by
  unfold fireTimeout
  split <;> rfl

/-- Flag behaviour of the listener: the cancelled / tearing-down flags
are never reset, and `isConnected` is never written by it. -/
theorem handleMessage_flags (d : Option JSONRPCMessage) (s : BridgeState) :
    (s.app.isCancelled = true → (handleMessage d s).app.isCancelled = true) ∧
    (s.app.isTearingDown = true →
      (handleMessage d s).app.isTearingDown = true) ∧
    (handleMessage d s).app.isConnected = s.app.isConnected := by
  cases d with
  | none => exact ⟨fun h => h, fun h => h, rfl⟩
  | some dd =>
    by_cases htag : dd.jsonrpc = some "2.0"
    · cases hid : dd.id with
      | none =>
        rw [handleMessage_no_id dd s htag hid]
        exact ⟨(handleNoteSwitch_flags dd s).1, (handleNoteSwitch_flags dd s).2,
          (handleNoteSwitch_frame dd s).2.2.2.2⟩
      | some i =>
        by_cases hre : (dd.result.isSome || dd.error.isSome) = true
        · cases hget : mapGet s.pending i with
          | none =>
            rw [handleMessage_response_miss dd s htag i hid hre hget]
            exact ⟨fun h => h, fun h => h, rfl⟩
          | some r =>
            rw [handleMessage_response_hit dd s htag i hid hre r hget]
            exact ⟨fun h => h, fun h => h, rfl⟩
        · rw [handleMessage_no_resp_member dd s htag i hid
            (Bool.not_eq_true _ ▸ hre)]
          exact ⟨(handleNoteSwitch_flags dd s).1, (handleNoteSwitch_flags dd s).2,
            (handleNoteSwitch_frame dd s).2.2.2.2⟩
    · rw [handleMessage_not_tagged dd s htag]
      exact ⟨fun h => h, fun h => h, rfl⟩

/-! ### Scenario states -/

/-- A bridge with exactly one outstanding request: id 1, `tools/call`. -/
def onePendingState : BridgeState :=
  (sendRequest "tools/call" none initialState).1

/-- A bridge whose only outstanding request is id 1 (`resources/read`). -/
def otherPendingState : BridgeState :=
  (sendRequest "resources/read" none initialState).1

/-- The `{x: 1}` payload of the round-trip scenario. -/
def vX1 : Value := Value.obj [("x", Value.num 1)]

/-- Echo round trip: send `echo-test` with `{x:1}`, peer answers the
same id with result `{x:1}`. -/
def echoTrace : List Event :=
  [Event.send "echo-test" (some vX1),
   Event.recv (some (mkResponseOk 1 vX1))]

/-- Two concurrent sends answered out of order (2 first, then 1). -/
def oooTrace : List Event :=
  [Event.send "alpha" none, Event.send "beta" none,
   Event.recv (some (mkResponseOk 2 (Value.str "for-beta"))),
   Event.recv (some (mkResponseOk 1 (Value.str "for-alpha")))]

/-! ### The claims -/

/-- C1: the claim states that teardown rejects every still-pending
promise with a cancellation-kind error.  The effect cleanup does not:
with request id 1 pending, it clears the timer and empties the map while
appending no settlement, and afterwards neither a Response for id 1 nor
its (now cleared) timer can ever settle the promise — it is left
permanently unsettled, contradicting the claim at this concrete input. -/
theorem C1_teardown_leaves_pending_unsettled :
    pendingIds onePendingState = [1] ∧
    onePendingState.settlements = [] ∧
    (teardownBridge onePendingState).pending = [] ∧
    (teardownBridge onePendingState).settlements = [] ∧
    handleMessage (some (mkResponseOk 1 Value.null))
      (teardownBridge onePendingState) = teardownBridge onePendingState ∧
    fireTimeout 1 (teardownBridge onePendingState) =
      teardownBridge onePendingState :=
  ⟨rfl, rfl, rfl, rfl, rfl, rfl⟩

/-- C2 counterexample: the claim states a send issued before the
initialize Response (session not connected) fails fast and is not
transmitted.  In the initial, not-yet-connected state, `callTool`
transmits the `tools/call` envelope immediately, registers it pending,
and records no rejection at all. -/
theorem C2_counterexample_send_before_connected_transmits :
    initialState.app.isConnected = false ∧
    (callTool "add" (Value.obj []) initialState).1.sent =
      [mkRequest 1 "tools/call"
        (some (Value.obj [("name", Value.str "add"),
                          ("arguments", Value.obj [])]))] ∧
    (callTool "add" (Value.obj []) initialState).1.settlements = [] ∧
    mapGet (callTool "add" (Value.obj []) initialState).1.pending 1 =
      some { method := "tools/call" } :=
  ⟨rfl, rfl, rfl, rfl⟩

/-- C2 amended: a send issued while the session is not yet connected is
transmitted immediately as a live request and registered as pending,
exactly like any other send; no "not connected" error is raised and
nothing is queued — the bridge does not gate sends on connection
state. -/
theorem C2_amended_unconnected_send_transmits_normally (s : BridgeState)
    (m : String) (p : Option Value) (_h : s.app.isConnected = false) :
    (sendRequest m p s).1.sent = s.sent ++ [mkRequest s.requestId m p] ∧
    mapGet (sendRequest m p s).1.pending s.requestId =
      some { method := m } ∧
    (sendRequest m p s).1.settlements = s.settlements := by
  refine ⟨rfl, ?_, rfl⟩
  exact mapGet_mapSet_self s.pending s.requestId { method := m }

/-- C2 witness: the amended statement at the initial state and
`ui/message`. -/
theorem C2_amended_witness :
    (sendRequest "ui/message" none initialState).1.sent =
      initialState.sent ++
        [mkRequest initialState.requestId "ui/message" none] ∧
    mapGet (sendRequest "ui/message" none initialState).1.pending
      initialState.requestId = some { method := "ui/message" } ∧
    (sendRequest "ui/message" none initialState).1.settlements =
      initialState.settlements :=
  C2_amended_unconnected_send_transmits_normally initialState
    "ui/message" none rfl

/-- C3: over every event trace, each promise settles at most once (the
settled-id log is duplicate-free), a settled id's record is gone and its
timer cancelled (pending and settled ids are disjoint; armed timers are
exactly the pending records), a request still pending settles — once —
as soon as its armed timer fires, and an identifier allocated to one
call is never allocated to another (the allocation list is
duplicate-free), in particular never while the first is pending. -/
theorem C3_each_send_settles_once (es : List Event) :
    (settledIds (run es)).Nodup ∧
    (pendingIds (run es)).Nodup ∧
    (allocatedIds (run es)).Nodup ∧
    (∀ i ∈ pendingIds (run es), i ∉ settledIds (run es)) ∧
    (∀ i ∈ pendingIds (run es),
      i ∈ settledIds (run (es ++ [Event.fire i])) ∧
      i ∉ pendingIds (run (es ++ [Event.fire i]))) := by
  obtain ⟨a1, a2, a3, a4, a5, a6, a7⟩ := inv_run es
  refine ⟨a6, a5, ?_, a7, ?_⟩
  · rw [a2]
    exact List.nodup_range' ..
  · intro i hi
    rw [run_append_single]
    exact fire_settles (run es) i hi

/-- C3 witness: one send; id 1 is pending and unsettled, and settles
when its timer fires. -/
theorem C3_witness :
    1 ∉ settledIds (run [Event.send "tools/call" none]) ∧
    1 ∈ settledIds (run ([Event.send "tools/call" none] ++
      [Event.fire 1])) :=
  ⟨(C3_each_send_settles_once [Event.send "tools/call" none]).2.2.2.1 1
      (by decide),
   ((C3_each_send_settles_once [Event.send "tools/call" none]).2.2.2.2 1
      (by decide)).1⟩

/-- C4: with a record pending for id `i`, the timeout callback (armed
for the default `REQUEST_TIMEOUT = 30000` ms) rejects the promise with a
timeout-kind error naming the method, removes the record, sends nothing
and touches no hook state; a Response for that id arriving afterwards is
silently ignored (it settles nothing and changes nothing). -/
theorem C4_timeout_rejects_late_response_ignored (s : BridgeState)
    (i : Nat) (r : PendingRecord) (hp : mapGet s.pending i = some r) :
    REQUEST_TIMEOUT = 30000 ∧
    (fireTimeout i s).settlements = s.settlements ++
      [(i, Settlement.rejected ("Request timeout: " ++ r.method))] ∧
    mapGet (fireTimeout i s).pending i = none ∧
    (fireTimeout i s).sent = s.sent ∧
    (fireTimeout i s).app = s.app ∧
    ∀ d : JSONRPCMessage, d.id = some i →
      (d.result.isSome || d.error.isSome) = true →
      handleMessage (some d) (fireTimeout i s) = fireTimeout i s := by
  rw [fireTimeout_hit i s r hp]
  refine ⟨rfl, rfl, mapGet_mapDelete_self _ _, rfl, rfl, ?_⟩
  intro d hid hre
  by_cases htag : d.jsonrpc = some "2.0"
  · exact handleMessage_response_miss d _ htag i hid hre
      (mapGet_mapDelete_self _ _)
  · exact handleMessage_not_tagged d _ htag

/-- C4 witness: the pending `tools/call` request, id 1, times out and a
late success Response for id 1 is then a no-op. -/
theorem C4_witness :
    (fireTimeout 1 onePendingState).settlements =
      onePendingState.settlements ++
        [(1, Settlement.rejected ("Request timeout: " ++ "tools/call"))] ∧
    handleMessage (some (mkResponseOk 1 Value.null))
      (fireTimeout 1 onePendingState) = fireTimeout 1 onePendingState :=
  ⟨(C4_timeout_rejects_late_response_ignored onePendingState 1
      { method := "tools/call" } rfl).2.1,
   (C4_timeout_rejects_late_response_ignored onePendingState 1
      { method := "tools/call" } rfl).2.2.2.2.2
      (mkResponseOk 1 Value.null) rfl rfl⟩

/-- C5: a Response envelope whose id matches no pending record is a
complete no-op: the handler returns the state unchanged — nothing
thrown, no promise settled, every other pending record and all other
bridge state untouched. -/
theorem C5_unknown_id_response_noop (d : JSONRPCMessage) (s : BridgeState)
    (i : Nat) (htag : d.jsonrpc = some "2.0") (hid : d.id = some i)
    (hre : (d.result.isSome || d.error.isSome) = true)
    (hmiss : mapGet s.pending i = none) :
    handleMessage (some d) s = s :=
  handleMessage_response_miss d s htag i hid hre hmiss

/-- C5 witness: a Response for unknown id 7 while id 1 is pending. -/
theorem C5_witness :
    handleMessage (some (mkResponseOk 7 (Value.str "late")))
      otherPendingState = otherPendingState :=
  C5_unknown_id_response_noop (mkResponseOk 7 (Value.str "late"))
    otherPendingState 7 rfl rfl rfl rfl

/-- C6: a Response matching a pending id settles that promise — success
with the carried result when `result` is present, failure carrying the
remote error message when `error` is present — and removes the record;
concretely, the `echo-test` round trip with `{x:1}` resolves id 1 with
`{x:1}`, and two concurrent sends answered out of order settle in
arrival order (2 before 1), each with its own payload. -/
theorem C6_matching_response_settles (s : BridgeState) (i : Nat)
    (r : PendingRecord) (d : JSONRPCMessage)
    (hp : mapGet s.pending i = some r)
    (htag : d.jsonrpc = some "2.0") (hid : d.id = some i) :
    (∀ v, d.result = some v → d.error = none →
      (handleMessage (some d) s).settlements =
        s.settlements ++ [(i, Settlement.resolved (some v))] ∧
      mapGet (handleMessage (some d) s).pending i = none) ∧
    (∀ e, d.error = some e →
      (handleMessage (some d) s).settlements =
        s.settlements ++ [(i, Settlement.rejected e.message)]) ∧
    (run echoTrace).settlements = [(1, Settlement.resolved (some vX1))] ∧
    (run oooTrace).settlements =
      [(2, Settlement.resolved (some (Value.str "for-beta"))),
       (1, Settlement.resolved (some (Value.str "for-alpha")))] := by
  refine ⟨?_, ?_, rfl, rfl⟩
  · intro v hv he
    have hre : (d.result.isSome || d.error.isSome) = true := by simp [hv]
    rw [handleMessage_response_hit d s htag i hid hre r hp]
    exact ⟨by simp [settleOf, he, hv], mapGet_mapDelete_self _ _⟩
  · intro e he
    have hre : (d.result.isSome || d.error.isSome) = true := by simp [he]
    rw [handleMessage_response_hit d s htag i hid hre r hp]
    simp [settleOf, he]

/-- C6 witness: the echo Response settles pending id 1 with `{x:1}`. -/
theorem C6_witness :
    (handleMessage (some (mkResponseOk 1 vX1))
        (run [Event.send "echo-test" (some vX1)])).settlements =
      (run [Event.send "echo-test" (some vX1)]).settlements ++
        [(1, Settlement.resolved (some vX1))] :=
  ((C6_matching_response_settles (run [Event.send "echo-test" (some vX1)])
      1 { method := "echo-test" } (mkResponseOk 1 vX1) rfl rfl rfl).1
    vX1 rfl rfl).1

/-- C7: an incoming payload that is null/undefined or lacks the exact
`jsonrpc: "2.0"` protocol tag is foreign traffic: the listener returns
the state completely unchanged — nothing thrown, no pending record
touched, no notification handler or CustomEvent invoked, nothing
surfaced to application code. -/
theorem C7_foreign_payload_ignored (d : Option JSONRPCMessage)
    (s : BridgeState)
    (h : ∀ m : JSONRPCMessage, d = some m → ¬ m.jsonrpc = some "2.0") :
    handleMessage d s = s := by
  cases d with
  | none => rfl
  | some m => exact handleMessage_not_tagged m s (h m rfl)

/-- C7 witness: a null payload, and a tagless message that would
otherwise match the cancellation case, are both dropped. -/
theorem C7_witness :
    handleMessage none onePendingState = onePendingState ∧
    handleMessage
      (some { jsonrpc := none, id := none,
              method := some "ui/tool-cancelled", params := none,
              result := none, error := none }) initialState =
      initialState :=
  ⟨C7_foreign_payload_ignored none onePendingState (fun m hm => by cases hm),
   C7_foreign_payload_ignored _ initialState
     (fun m hm => by cases hm; decide)⟩

/-- C8: request identifiers come from the single module-level counter:
over every trace the allocated ids are exactly `[1, ..., requestId-1]` —
starting at 1, strictly increasing, never reallocated — and the
`ui/initialize` handshake and the public operations all allocate through
the same `sendRequest` counter. -/
theorem C8_request_ids_strictly_increasing (es : List Event) :
    allocatedIds (run es) = List.range' 1 ((run es).requestId - 1) ∧
    List.Pairwise (· < ·) (allocatedIds (run es)) ∧
    1 ≤ (run es).requestId ∧
    (∀ s : BridgeState,
      connectStart s = sendRequest "ui/initialize" (some initParams) s) ∧
    (∀ (s : BridgeState) (n : String) (a : Value),
      (callTool n a s).2 = s.requestId) ∧
    (∀ (s : BridgeState) (m : String) (p : Option Value),
      (sendRequest m p s).2 = s.requestId) := by
  obtain ⟨a1, a2, _, _, _, _, _⟩ := inv_run es
  refine ⟨a2, ?_, a1, fun s => rfl, fun s n a => rfl, fun s m p => rfl⟩
  rw [a2]
  exact List.pairwise_lt_range' ..

/-- C9: an envelope carrying the protocol tag, an id and a method but
neither `result` nor `error` (a host-initiated Request) is not treated
as a Response: it falls through to the notification switch — handled by
method name, or ignored if unknown — no pending record or settlement
changes, and the listener never posts any Response back to the host. -/
theorem C9_host_request_not_answered (d : JSONRPCMessage)
    (s : BridgeState) (i : Nat) (htag : d.jsonrpc = some "2.0")
    (hid : d.id = some i) (_hm : d.method.isSome = true)
    (hres : d.result = none) (herr : d.error = none) :
    handleMessage (some d) s = handleNoteSwitch d s ∧
    (handleMessage (some d) s).pending = s.pending ∧
    (handleMessage (some d) s).settlements = s.settlements ∧
    (∀ (e : Option JSONRPCMessage) (t : BridgeState),
      (handleMessage e t).sent = t.sent) := by
  have hre : (d.result.isSome || d.error.isSome) = false := by
    simp [hres, herr]
  have hroute := handleMessage_no_resp_member d s htag i hid hre
  obtain ⟨_, f2, f3, _, _⟩ := handleNoteSwitch_frame d s
  exact ⟨hroute, by rw [hroute]; exact f2, by rw [hroute]; exact f3,
    handleMessage_sent_eq⟩

/-- C9 witness: a tagged Request with id 5 and a cancellation method is
routed to the switch and answered by nothing. -/
theorem C9_witness :
    handleMessage
      (some { jsonrpc := some "2.0", id := some 5,
              method := some "ui/tool-cancelled", params := none,
              result := none, error := none }) initialState =
    handleNoteSwitch
      { jsonrpc := some "2.0", id := some 5,
        method := some "ui/tool-cancelled", params := none,
        result := none, error := none } initialState :=
  (C9_host_request_not_answered
    { jsonrpc := some "2.0", id := some 5,
      method := some "ui/tool-cancelled", params := none,
      result := none, error := none }
    initialState 5 rfl rfl rfl rfl rfl).1

/-- C10: the `isCancelled` and `isTearingDown` flags are monotone under
every bridge event — the `ui/tool-cancelled` and `ui/resource-teardown`
notifications set them and no handler path resets them — while no bridge
event (in particular no notification) ever changes `isConnected`, which
is set to true only by the continuation that runs on a successful
Response to the `ui/initialize` request. -/
theorem C10_session_flags_monotone (e : Event) (s : BridgeState) :
    (s.app.isCancelled = true → (step s e).app.isCancelled = true) ∧
    (s.app.isTearingDown = true → (step s e).app.isTearingDown = true) ∧
    (step s e).app.isConnected = s.app.isConnected ∧
    (∀ p, (handleMessage (some (mkNote "ui/tool-cancelled" p))
      s).app.isCancelled = true) ∧
    (∀ p, (handleMessage (some (mkNote "ui/resource-teardown" p))
      s).app.isTearingDown = true) ∧
    (∀ (r : Option Value) (t : BridgeState),
      (initThen r t).app.isConnected = true) := by
  refine ⟨?_, ?_, ?_, ?_, ?_, fun r t => rfl⟩
  · cases e with
    | send m p => exact fun h => h
    | recv d => exact (handleMessage_flags d s).1
    | fire i =>
      intro h
      show (fireTimeout i s).app.isCancelled = true
      rw [fireTimeout_app]
      exact h
    | close => exact fun h => h
  · cases e with
    | send m p => exact fun h => h
    | recv d => exact (handleMessage_flags d s).2.1
    | fire i =>
      intro h
      show (fireTimeout i s).app.isTearingDown = true
      rw [fireTimeout_app]
      exact h
    | close => exact fun h => h
  · cases e with
    | send m p => rfl
    | recv d => exact (handleMessage_flags d s).2.2
    | fire i =>
      show (fireTimeout i s).app.isConnected = s.app.isConnected
      rw [fireTimeout_app]
    | close => rfl
  · intro p
    rw [handleMessage_no_id (mkNote "ui/tool-cancelled" p) s rfl rfl]
    rfl
  · intro p
    rw [handleMessage_no_id (mkNote "ui/resource-teardown" p) s rfl rfl]
    rfl

/-- A state in which both latched flags have been set by their
notifications. -/
def flaggedState : BridgeState :=
  handleMessage (some (mkNote "ui/resource-teardown" none))
    (handleMessage (some (mkNote "ui/tool-cancelled" none)) initialState)

/-- C10 witness: once set, the flags survive a further event. -/
theorem C10_witness :
    (step flaggedState (Event.recv none)).app.isCancelled = true ∧
    (step flaggedState (Event.recv none)).app.isTearingDown = true :=
  ⟨(C10_session_flags_monotone (Event.recv none) flaggedState).1 rfl,
   (C10_session_flags_monotone (Event.recv none) flaggedState).2.1 rfl⟩

end McpBridge
